import Mathlib

/-!
Shallow embedding of `src/backend/ivr_sim_backend.py`, a simulated IVR
backend for a railway support line.  Python dictionaries become association
lists over `String` keys, the mutable module-level state (`active_calls`,
`call_history`) becomes an explicit `Store` value threaded through the
handlers, timestamps become `Nat` parameters (the code only ever checks
presence of `end_time`, never its value), and the random call-id draw of
`start_call` becomes an explicit `Nat` parameter.  The optional OpenAI
fallback is a `String → Option String` parameter of `conversation`; the
configuration with no `OPENAI_API_KEY` is the constant-`none` function,
mirroring lines 111-113 of the source.
-/

namespace IVR

/-- A call session, mirroring the session dict built in `start_call`
(lines 137-144) and the `CallLog` shape: `end_time` is absent (`none`)
until the call is archived. -/
structure Session where
  call_id : String
  caller_number : String
  start_time : Nat
  end_time : Option Nat
  current_menu : String
  menu_path : List String
  inputs : List String
deriving Repr, DecidableEq

/-- The module-level mutable state: `active_calls` (a dict keyed by
call_id, modelled as an association list) and `call_history` (a list,
append-only). -/
structure Store where
  active_calls : List (String × Session)
  call_history : List Session
deriving Repr, DecidableEq

/-- Dict read `d[k]` / `k in d`: first binding of the key, if any. -/
def lookupAL {α : Type} (l : List (String × α)) (k : String) : Option α :=
  match l with
  | [] => none
  | (k', v) :: rest => if k' = k then some v else lookupAL rest k

/-- Dict write `d[k] = v`: replace the binding in place if the key is
present, otherwise add it at the end (Python dicts keep insertion order). -/
def insertAL {α : Type} (l : List (String × α)) (k : String) (v : α) :
    List (String × α) :=
  match l with
  | [] => [(k, v)]
  | (k', v') :: rest =>
      if k' = k then (k, v) :: rest else (k', v') :: insertAL rest k v

/-- Dict delete `del d[k]`: drop the binding of the key. -/
def eraseAL {α : Type} (l : List (String × α)) (k : String) :
    List (String × α) :=
  match l with
  | [] => []
  | (k', v) :: rest =>
      if k' = k then eraseAL rest k else (k', v) :: eraseAL rest k

/-- One entry of a menu's `options` table. -/
structure MenuOption where
  message : String
  next : Option String
deriving Repr, DecidableEq

/-- One menu of `MENU_STRUCTURE`: a prompt and an options table. -/
structure Menu where
  prompt : String
  options : List (String × MenuOption)
deriving Repr, DecidableEq

/-- `MENU_STRUCTURE["main"]` (lines 64-72). -/
def main_menu : Menu :=
  { prompt := "Welcome to Indian Railways Customer Support. You can say 'book ticket', 'train status' or 'refund'.",
    options :=
      [ ("booking", { message := "You selected Ticket Booking.", next := some "booking" }),
        ("train_status", { message := "You selected Train Status.", next := some "train_status" }),
        ("refund", { message := "You selected Refund Enquiry.", next := some "refund" }),
        ("agent", { message := "Connecting you to an agent.", next := none }) ] }

/-- `MENU_STRUCTURE["booking"]` (lines 73-76). -/
def booking_menu : Menu :=
  { prompt := "Booking Menu. Say 'sleeper' or 'ac' or say 'back' to return.",
    options := [] }

/-- `MENU_STRUCTURE["train_status"]` (lines 77-80). -/
def train_status_menu : Menu :=
  { prompt := "Please say or enter your 6-digit PNR number.",
    options := [] }

/-- `MENU_STRUCTURE["refund"]` (lines 81-84). -/
def refund_menu : Menu :=
  { prompt := "Refund Menu. Say 'cancelled' or 'tatkal' or say 'back' to return.",
    options := [] }

/-- The menu catalog `MENU_STRUCTURE` (lines 63-85). -/
def MENU_STRUCTURE : List (String × Menu) :=
  [ ("main", main_menu), ("booking", booking_menu),
    ("train_status", train_status_menu), ("refund", refund_menu) ]

/-- `text.lower()` as the character list of the input (ASCII case fold,
which covers the keyword alphabet the classifier uses). -/
def lowerChars (text : String) : List Char :=
  text.toList.map Char.toLower

/-- Python's substring test `k in t` on character lists. -/
def strContains (t k : List Char) : Bool :=
  match t with
  | [] => k.isPrefixOf ([] : List Char)
  | _ :: rest => k.isPrefixOf t || strContains rest k

/-- `any(k in t for k in kws)`. -/
def containsAny (t : List Char) (kws : List String) : Bool :=
  kws.any (fun k => strContains t k.toList)

/-- `detect_intent` (lines 88-108): ordered first-match-wins keyword scan
over the lower-cased text, then the 6-digit PNR heuristic, else `None`. -/
def detect_intent (text : String) : Option (String × String) :=
  let t := lowerChars text
  if containsAny t ["book", "ticket", "booking", "reserve"] then
    some ("booking", "Sure — I can help with booking. Do you want Sleeper or AC class?")
  else if containsAny t ["status", "pnr", "flight status", "train status"] then
    some ("train_status", "Please tell me your 6-digit PNR number.")
  else if containsAny t ["refund", "cancel", "tatkal", "money back"] then
    some ("refund", "I can help with refunds. Is this for a cancelled train or a tatkal booking?")
  else if containsAny t ["agent", "human", "representative", "help"] then
    some ("agent", "Okay — transferring you to an agent. Please hold.")
  else if containsAny t ["back", "main", "menu"] then
    some ("main", main_menu.prompt)
  else
    let digits := t.filter Char.isDigit
    if 6 ≤ digits.length then
      let pnr : String := ⟨digits.take 6⟩
      some ("pnr_lookup", "PNR " ++ pnr.toList.asString ++ " is CONFIRMED. Train AI101 from Mumbai to Delhi.")
    else
      none

/-- `openai_fallback` when no `OPENAI_API_KEY` is configured (lines
111-113): returns `None` on every prompt without calling out. -/
def openai_fallback_disabled : String → Option String :=
  fun _ => none

/-- Response of `POST /ivr/start` (line 146). -/
structure StartResp where
  call_id : String
  status : String
  prompt : String
deriving Repr, DecidableEq

/-- `start_call` (lines 134-146).  `rnd` is the value of
`random.randint(100000, 999999)` and `now` the start timestamp. -/
def start_call (st : Store) (caller_number : String) (rnd : Nat) (now : Nat) :
    Store × StartResp :=
  let call_id := "CALL_" ++ toString rnd
  let session : Session :=
    { call_id := call_id, caller_number := caller_number, start_time := now,
      end_time := none, current_menu := "main", menu_path := ["main"],
      inputs := [] }
  ({ st with active_calls := insertAL st.active_calls call_id session },
   { call_id := call_id, status := "connected", prompt := main_menu.prompt })

/-- Response of `POST /ivr/dtmf`; `current_menu` is `none` for the
`transferred` response, which carries no such key. -/
structure DtmfResp where
  status : String
  message : String
  current_menu : Option String
deriving Repr, DecidableEq

/-- The digit→intent dict of `handle_dtmf` (lines 157-163), read with
`.get(digit, None)`. -/
def dtmf_mapping (digit : String) : Option String :=
  if digit = "1" then some "booking"
  else if digit = "2" then some "train_status"
  else if digit = "3" then some "refund"
  else if digit = "9" then some "agent"
  else if digit = "0" then some "main"
  else none

/-- `handle_dtmf` (lines 148-188).  A `none` response is the 404
`HTTPException` raised before any mutation; the final `none` with the
input written back is the (unreachable) fall-through off the end of the
Python function. -/
def handle_dtmf (st : Store) (call_id digit : String) (now : Nat) :
    Store × Option DtmfResp :=
  match lookupAL st.active_calls call_id with
  | none => (st, none)
  | some session0 =>
    let session := { session0 with inputs := session0.inputs ++ [digit] }
    match dtmf_mapping digit with
    | none =>
        ({ st with active_calls := insertAL st.active_calls call_id session },
         some { status := "invalid", message := "Invalid option. Try again.",
                current_menu := some session.current_menu })
    | some intent =>
        if intent = "agent" then
          let ended := { session with end_time := some now }
          ({ active_calls := eraseAL st.active_calls call_id,
             call_history := st.call_history ++ [ended] },
           some { status := "transferred", message := "Transferring to agent...",
                  current_menu := none })
        else if intent = "booking" then
          let s2 := { session with
            current_menu := "booking",
            menu_path := session.menu_path ++ ["booking"] }
          ({ st with active_calls := insertAL st.active_calls call_id s2 },
           some { status := "ok",
                  message := "You selected Booking. Do you want Sleeper or AC?",
                  current_menu := some "booking" })
        else if intent = "train_status" then
          let s2 := { session with
            current_menu := "train_status",
            menu_path := session.menu_path ++ ["train_status"] }
          ({ st with active_calls := insertAL st.active_calls call_id s2 },
           some { status := "ok", message := "Please enter your 6-digit PNR.",
                  current_menu := some "train_status" })
        else if intent = "refund" then
          let s2 := { session with
            current_menu := "refund",
            menu_path := session.menu_path ++ ["refund"] }
          ({ st with active_calls := insertAL st.active_calls call_id s2 },
           some { status := "ok",
                  message := "Refund menu. Say 'cancelled' or 'tatkal'.",
                  current_menu := some "refund" })
        else if intent = "main" then
          let s2 := { session with
            current_menu := "main",
            menu_path := session.menu_path ++ ["main"] }
          ({ st with active_calls := insertAL st.active_calls call_id s2 },
           some { status := "ok", message := main_menu.prompt,
                  current_menu := some "main" })
        else
          ({ st with active_calls := insertAL st.active_calls call_id session },
           none)

/-- Response of `POST /ivr/conversation` (lines 213, 218, 222). -/
structure ConvResp where
  intent : String
  message : String
  call_id : Option String
deriving Repr, DecidableEq

/-- `text.strip()`: drop leading and trailing whitespace (executable over
the character list, unlike `String.trim`). -/
def pyStrip (s : String) : String :=
  ⟨((s.toList.dropWhile Char.isWhitespace).reverse.dropWhile Char.isWhitespace).reverse⟩

/-- `conversation` (lines 190-222).  `fb` is the `openai_fallback`
collaborator; a request with no session attached has `call_id = none`.
The guard `if call_id and call_id in active_calls` treats the empty
string as falsy, hence the extra `cid = ""` test. -/
def conversation (st : Store) (input_text : String) (call_id : Option String)
    (fb : String → Option String) : Store × ConvResp :=
  let text := pyStrip input_text
  let sessionOpt : Option (String × Session) :=
    match call_id with
    | some cid =>
        if cid = "" then none
        else (lookupAL st.active_calls cid).map (fun s => (cid, s))
    | none => none
  match detect_intent text with
  | some (intent, message) =>
      let st' :=
        match sessionOpt with
        | some (cid, session) =>
            if ["booking", "train_status", "refund", "main"].contains intent then
              let s2 :=
                { session with
                  current_menu :=
                    if intent = "pnr_lookup" then session.current_menu else intent,
                  menu_path := session.menu_path ++ [intent] }
              { st with active_calls := insertAL st.active_calls cid s2 }
            else st
        | none => st
      (st', { intent := intent, message := message, call_id := call_id })
  | none =>
      match fb text with
      | some ai_reply =>
          (st, { intent := "ai_fallback", message := ai_reply, call_id := call_id })
      | none =>
          (st, { intent := "unknown",
                 message := "Sorry, I didn't get that. You can say 'book ticket', 'train status', or 'refund'.",
                 call_id := call_id })

/-- `end_call` (lines 224-232): archive if active, else a soft
`not_found`; the returned string is the `status` field of the response. -/
def end_call (st : Store) (call_id : String) (now : Nat) : Store × String :=
  match lookupAL st.active_calls call_id with
  | none => (st, "not_found")
  | some session =>
      let ended := { session with end_time := some now }
      ({ active_calls := eraseAL st.active_calls call_id,
         call_history := st.call_history ++ [ended] }, "ended")

/-- The per-session half of the spec invariant: `current_menu` is the last
element of `menu_path`. -/
def sessionOk (s : Session) : Prop :=
  s.menu_path.getLast? = some s.current_menu

instance (s : Session) : Decidable (sessionOk s) := by
  unfold sessionOk; infer_instance

/-- The store invariant of §3 of the spec: every active session satisfies
`sessionOk`, and every archived session has a non-null `end_time`. -/
def Inv (st : Store) : Prop :=
  (∀ p ∈ st.active_calls, sessionOk p.2) ∧
  (∀ s ∈ st.call_history, s.end_time ≠ none)

instance (st : Store) : Decidable (Inv st) := by
  unfold Inv; infer_instance

/-- The states reachable from the initial empty store through the four
state-touching endpoints, over arbitrary request data, random draws,
timestamps and fallback behaviour. -/
inductive Reachable : Store → Prop where
  | init : Reachable { active_calls := [], call_history := [] }
  | start (st caller rnd now) : Reachable st →
      Reachable (start_call st caller rnd now).1
  | dtmf (st cid digit now) : Reachable st →
      Reachable (handle_dtmf st cid digit now).1
  | conv (st text cid fb) : Reachable st →
      Reachable (conversation st text cid fb).1
  | stop (st cid now) : Reachable st →
      Reachable (end_call st cid now).1

end IVR

namespace IVR

theorem lookupAL_mem {α : Type} {l : List (String × α)} {k : String} {v : α}
    (h : lookupAL l k = some v) : (k, v) ∈ l := by
  induction l with
  | nil => simp [lookupAL] at h
  | cons p rest ih =>
    obtain ⟨k', v'⟩ := p
    by_cases hk : k' = k
    · subst hk
      simp [lookupAL] at h
      subst h
      exact List.mem_cons_self _ _
    · simp [lookupAL, hk] at h
      exact List.mem_cons_of_mem _ (ih h)

theorem mem_insertAL {α : Type} {l : List (String × α)} {k : String} {v : α}
    {p : String × α} (h : p ∈ insertAL l k v) : p = (k, v) ∨ p ∈ l := by
  induction l with
  | nil => simpa [insertAL] using h
  | cons q rest ih =>
    obtain ⟨k', v'⟩ := q
    by_cases hk : k' = k
    · subst hk
      simp [insertAL] at h
      rcases h with h | h
      · exact Or.inl h
      · exact Or.inr (List.mem_cons_of_mem _ h)
    · simp [insertAL, hk] at h
      rcases h with h | h
      · exact Or.inr (by simp [h])
      · rcases ih h with h' | h'
        · exact Or.inl h'
        · exact Or.inr (List.mem_cons_of_mem _ h')

theorem lookupAL_insertAL_self {α : Type} (l : List (String × α)) (k : String)
    (v : α) : lookupAL (insertAL l k v) k = some v := by
  induction l with
  | nil => simp [insertAL, lookupAL]
  | cons q rest ih =>
    obtain ⟨k', v'⟩ := q
    by_cases hk : k' = k
    · subst hk
      simp [insertAL, lookupAL]
    · simp [insertAL, lookupAL, hk, ih]

theorem lookupAL_insertAL_ne {α : Type} (l : List (String × α)) {k k' : String}
    (v : α) (h : k' ≠ k) : lookupAL (insertAL l k v) k' = lookupAL l k' := by
  induction l with
  | nil => simp [insertAL, lookupAL, Ne.symm h]
  | cons q rest ih =>
    obtain ⟨k₀, v₀⟩ := q
    by_cases hk : k₀ = k
    · subst hk
      simp [insertAL, lookupAL, Ne.symm h]
    · simp [insertAL, lookupAL, hk, ih]

theorem lookupAL_eraseAL_self {α : Type} (l : List (String × α)) (k : String) :
    lookupAL (eraseAL l k) k = none := by
  induction l with
  | nil => simp [eraseAL, lookupAL]
  | cons q rest ih =>
    obtain ⟨k', v'⟩ := q
    by_cases hk : k' = k
    · subst hk
      simpa [eraseAL, lookupAL] using ih
    · simpa [eraseAL, lookupAL, hk] using ih

theorem lookupAL_eraseAL_ne {α : Type} (l : List (String × α)) {k k' : String}
    (h : k' ≠ k) : lookupAL (eraseAL l k) k' = lookupAL l k' := by
  induction l with
  | nil => simp [eraseAL, lookupAL]
  | cons q rest ih =>
    obtain ⟨k₀, v₀⟩ := q
    by_cases hk : k₀ = k
    · subst hk
      simpa [eraseAL, lookupAL, Ne.symm h] using ih
    · simp [eraseAL, lookupAL, hk, ih]

theorem mem_eraseAL {α : Type} {l : List (String × α)} {k : String}
    {p : String × α} (h : p ∈ eraseAL l k) : p ∈ l := by
  induction l with
  | nil => simp [eraseAL] at h
  | cons q rest ih =>
    obtain ⟨k₀, v₀⟩ := q
    by_cases hk : k₀ = k
    · subst hk
      simp [eraseAL] at h
      exact List.mem_cons_of_mem _ (ih h)
    · simp [eraseAL, hk] at h
      rcases h with h | h
      · simp [h]
      · exact List.mem_cons_of_mem _ (ih h)

theorem getLast?_append_singleton (l : List String) (a : String) :
    (l ++ [a]).getLast? = some a := by
  rw [List.getLast?_append_cons]
  rfl

end IVR

namespace IVR

theorem inv_insert_active {st : Store} {k : String} {v : Session}
    (h : Inv st) (hv : sessionOk v) :
    Inv { st with active_calls := insertAL st.active_calls k v } := by
  constructor
  · intro p hp
    rcases mem_insertAL hp with rfl | hp'
    · exact hv
    · exact h.1 p hp'
  · intro s hs
    exact h.2 s hs

theorem inv_archive {st : Store} {k : String} {v : Session}
    (h : Inv st) (hv : v.end_time ≠ none) :
    Inv { active_calls := eraseAL st.active_calls k,
          call_history := st.call_history ++ [v] } := by
  constructor
  · intro p hp
    exact h.1 p (mem_eraseAL hp)
  · intro s hs
    rcases List.mem_append.mp hs with hs' | hs'
    · exact h.2 s hs'
    · simp at hs'
      subst hs'
      exact hv

theorem inv_start_call {st : Store} (caller : String) (rnd now : Nat)
    (h : Inv st) : Inv (start_call st caller rnd now).1 := by
  refine inv_insert_active h ?_
  rfl

theorem inv_handle_dtmf {st : Store} (cid digit : String) (now : Nat)
    (h : Inv st) : Inv (handle_dtmf st cid digit now).1 := by
  unfold handle_dtmf
  cases hl : lookupAL st.active_calls cid with
  | none => simpa using h
  | some s0 =>
    have hs0 : sessionOk s0 := h.1 (cid, s0) (lookupAL_mem hl)
    cases hm : dtmf_mapping digit with
    | none => exact inv_insert_active h hs0
    | some intent =>
      by_cases h1 : intent = "agent"
      · simp only [h1, if_pos rfl]
        exact inv_archive h (by simp)
      · by_cases h2 : intent = "booking"
        · simp only [h1, h2, if_neg, if_pos, reduceIte]
          exact inv_insert_active h (getLast?_append_singleton _ _)
        · by_cases h3 : intent = "train_status"
          · simp only [h1, h2, h3, reduceIte]
            exact inv_insert_active h (getLast?_append_singleton _ _)
          · by_cases h4 : intent = "refund"
            · simp only [h1, h2, h3, h4, reduceIte]
              exact inv_insert_active h (getLast?_append_singleton _ _)
            · by_cases h5 : intent = "main"
              · simp only [h1, h2, h3, h4, h5, reduceIte]
                exact inv_insert_active h (getLast?_append_singleton _ _)
              · simp only [h1, h2, h3, h4, h5, reduceIte]
                exact inv_insert_active h hs0

theorem inv_conversation {st : Store} (input_text : String) (cid : Option String)
    (fb : String → Option String) (h : Inv st) :
    Inv (conversation st input_text cid fb).1 := by
  cases hd : detect_intent (pyStrip input_text) with
  | none =>
    cases hf : fb (pyStrip input_text) with
    | none => simpa [conversation, hd, hf] using h
    | some r => simpa [conversation, hd, hf] using h
  | some im =>
    obtain ⟨intent, message⟩ := im
    cases cid with
    | none => simpa [conversation, hd] using h
    | some c =>
      by_cases hc : c = ""
      · simpa [conversation, hd, hc] using h
      · cases hl : lookupAL st.active_calls c with
        | none => simpa [conversation, hd, hc, hl] using h
        | some s =>
          by_cases hmem : intent = "booking" ∨ intent = "train_status" ∨
              intent = "refund" ∨ intent = "main"
          · have hne : intent ≠ "pnr_lookup" := by
              rcases hmem with rfl | rfl | rfl | rfl <;> decide
            have hgoal : (conversation st input_text (some c) fb).1 = { st with active_calls := insertAL st.active_calls c { s with current_menu := intent, menu_path := s.menu_path ++ [intent] } } := by
              simp [conversation, hd, hc, hl, hmem, hne]
            rw [hgoal]
            exact inv_insert_active h (getLast?_append_singleton _ _)
          · simpa [conversation, hd, hc, hl, hmem] using h

theorem inv_end_call {st : Store} (cid : String) (now : Nat) (h : Inv st) :
    Inv (end_call st cid now).1 := by
  unfold end_call
  cases hl : lookupAL st.active_calls cid with
  | none => simpa using h
  | some s => exact inv_archive h (by simp)

/-- Claim C1: in every reachable state of the store, every call_id in the
active registry maps to a session whose `current_menu` equals the last
element of its `menu_path`, and every session in the archive has a
non-null `end_time`; reachability is closed under `start_call`,
`handle_dtmf`, `conversation` and `end_call`, so the invariant is
preserved by all four operations. -/
theorem C1_reachable_invariant (st : Store) (h : Reachable st) : Inv st := by
  induction h with
  | init => decide
  | start st caller rnd now _ ih => exact inv_start_call caller rnd now ih
  | dtmf st cid digit now _ ih => exact inv_handle_dtmf cid digit now ih
  | conv st text cid fb _ ih => exact inv_conversation text cid fb ih
  | stop st cid now _ ih => exact inv_end_call cid now ih

/-- Witness for C1 at a concrete reachable state: start a call, then press
digit 1. -/
theorem C1_witness :
    Inv (handle_dtmf (start_call { active_calls := [], call_history := [] }
      "9999999999" 123456 0).1 "CALL_123456" "1" 1).1 :=
  C1_reachable_invariant _
    (Reachable.dtmf _ _ _ _ (Reachable.start _ _ _ _ Reachable.init))

end IVR

namespace IVR

/-- A concrete active session used by counterexamples and witnesses. -/
def demoSession : Session :=
  { call_id := "CALL_123456", caller_number := "9999999999", start_time := 0,
    end_time := none, current_menu := "main", menu_path := ["main"],
    inputs := [] }

/-- A concrete store with one active call and an empty archive. -/
def demoStore : Store :=
  { active_calls := [("CALL_123456", demoSession)], call_history := [] }

/-- Claim C2: `detect_intent` is a function of the text (hence
deterministic) and its rules apply in order with first match winning:
any input whose lower-cased text contains one of "book", "ticket",
"booking", "reserve" classifies as `booking` — even if the text also
contains a run of 6 or more digits — so "book a ticket, PNR 123456"
yields intent `booking`, while "123456" alone yields `pnr_lookup` with
PNR "123456". -/
theorem C2_detect_intent_order :
    (∀ text : String,
      containsAny (lowerChars text) ["book", "ticket", "booking", "reserve"] = true →
      detect_intent text =
        some ("booking", "Sure — I can help with booking. Do you want Sleeper or AC class?")) ∧
    detect_intent "book a ticket, PNR 123456" =
      some ("booking", "Sure — I can help with booking. Do you want Sleeper or AC class?") ∧
    detect_intent "123456" =
      some ("pnr_lookup", "PNR 123456 is CONFIRMED. Train AI101 from Mumbai to Delhi.") := by
  refine ⟨?_, rfl, rfl⟩
  intro text h
  simp [detect_intent, h]

/-- Witness for C2's universally quantified conjunct at a concrete text
that contains both a booking keyword and a 7-digit run. -/
theorem C2_witness :
    containsAny (lowerChars "book now 1234567") ["book", "ticket", "booking", "reserve"] = true ∧
    detect_intent "book now 1234567" =
      some ("booking", "Sure — I can help with booking. Do you want Sleeper or AC class?") :=
  ⟨rfl, C2_detect_intent_order.1 "book now 1234567" rfl⟩

/-- Counterexample to claim C5: when the random draw repeats the 6-digit
suffix of a live call (here 123456), `start_call` yields a call_id that IS
currently a key of the active registry — the code never checks for
collisions, so the generated id is not always fresh and ids can be
reused. -/
theorem C5_counterexample :
    (start_call demoStore "8888888888" 123456 5).2.call_id = "CALL_123456" ∧
    lookupAL demoStore.active_calls "CALL_123456" = some demoSession := by
  constructor
  · rfl
  · rfl

/-- Claim C5 as amended: `start_call` always returns status "connected"
with the main menu's prompt and call_id `"CALL_" ++ rnd`, and stores under
that id a fresh session with `current_menu` "main", `menu_path` ["main"]
and empty `inputs` (overwriting any live session that already held the
id); the archive and all other registry keys are untouched.  Freshness of
the id holds only when the random draw avoids the suffixes of the live
call ids. -/
theorem C5_start_call_behaviour (st : Store) (caller : String) (rnd now : Nat) :
    (start_call st caller rnd now).2.status = "connected" ∧
    (start_call st caller rnd now).2.prompt = main_menu.prompt ∧
    (start_call st caller rnd now).2.call_id = "CALL_" ++ toString rnd ∧
    lookupAL (start_call st caller rnd now).1.active_calls ("CALL_" ++ toString rnd) =
      some { call_id := "CALL_" ++ toString rnd, caller_number := caller,
             start_time := now, end_time := none, current_menu := "main",
             menu_path := ["main"], inputs := [] } ∧
    (start_call st caller rnd now).1.call_history = st.call_history ∧
    (∀ k, k ≠ "CALL_" ++ toString rnd →
      lookupAL (start_call st caller rnd now).1.active_calls k =
        lookupAL st.active_calls k) := by
  refine ⟨rfl, rfl, rfl, ?_, rfl, ?_⟩
  · exact lookupAL_insertAL_self _ _ _
  · intro k hk
    exact lookupAL_insertAL_ne _ _ hk

/-- Witness for C5's amended theorem at a concrete store and draw. -/
theorem C5_witness :
    "CALL_7" ≠ "CALL_" ++ toString 123456 ∧
    lookupAL (start_call demoStore "8888888888" 123456 5).1.active_calls "CALL_7" =
      lookupAL demoStore.active_calls "CALL_7" :=
  ⟨by decide, (C5_start_call_behaviour demoStore "8888888888" 123456 5).2.2.2.2.2
    "CALL_7" (by decide)⟩

end IVR

namespace IVR

/-- Claim C6: for every session in the active registry, digit "9" archives
the session: it is removed from the active registry, a snapshot with a
non-null `end_time` (and the "9" appended to its inputs) is appended to
the archive, and the response has status "transferred". -/
theorem C6_dtmf_nine_archives (st : Store) (cid : String) (s : Session)
    (now : Nat) (h : lookupAL st.active_calls cid = some s) :
    handle_dtmf st cid "9" now =
      ({ active_calls := eraseAL st.active_calls cid,
         call_history := st.call_history ++
           [{ s with inputs := s.inputs ++ ["9"], end_time := some now }] },
       some { status := "transferred", message := "Transferring to agent...",
              current_menu := none }) ∧
    lookupAL (handle_dtmf st cid "9" now).1.active_calls cid = none ∧
    ({ s with inputs := s.inputs ++ ["9"], end_time := some now } : Session).end_time ≠ none := by
  have heq : handle_dtmf st cid "9" now =
      ({ active_calls := eraseAL st.active_calls cid,
         call_history := st.call_history ++
           [{ s with inputs := s.inputs ++ ["9"], end_time := some now }] },
       some { status := "transferred", message := "Transferring to agent...",
              current_menu := none }) := by
    simp [handle_dtmf, h, dtmf_mapping]
  refine ⟨heq, ?_, by simp⟩
  rw [heq]
  exact lookupAL_eraseAL_self _ _

/-- Witness for C6 on the concrete one-call store. -/
theorem C6_witness :
    lookupAL demoStore.active_calls "CALL_123456" = some demoSession ∧
    lookupAL (handle_dtmf demoStore "CALL_123456" "9" 4).1.active_calls "CALL_123456" = none :=
  ⟨rfl, (C6_dtmf_nine_archives demoStore "CALL_123456" demoSession 4 rfl).2.1⟩

/-- Claim C8: `end_call` on an unknown (or already ended) call_id returns
"not_found" and leaves the whole store unchanged — no exception is raised
(the embedding is a total function); on an active call_id it stamps
`end_time`, appends the copy to the archive, removes the active entry and
returns "ended". -/
theorem C8_end_call_not_found (st : Store) (cid : String) (now : Nat) :
    (lookupAL st.active_calls cid = none → end_call st cid now = (st, "not_found")) ∧
    (∀ s, lookupAL st.active_calls cid = some s →
      end_call st cid now =
        ({ active_calls := eraseAL st.active_calls cid,
           call_history := st.call_history ++ [{ s with end_time := some now }] },
         "ended")) := by
  constructor
  · intro h
    simp [end_call, h]
  · intro s h
    simp [end_call, h]

/-- Witness for C8: end an unknown call on the empty store, and end the
one live call of the demo store. -/
theorem C8_witness :
    end_call { active_calls := [], call_history := [] } "CALL_1" 9 =
      ({ active_calls := [], call_history := [] }, "not_found") ∧
    end_call demoStore "CALL_123456" 9 =
      ({ active_calls := [],
         call_history := [{ demoSession with end_time := some 9 }] }, "ended") := by
  constructor
  · exact (C8_end_call_not_found { active_calls := [], call_history := [] } "CALL_1" 9).1 rfl
  · have h := (C8_end_call_not_found demoStore "CALL_123456" 9).2 demoSession rfl
    rw [h]
    decide

/-- Claim C9: with the fallback responder disabled, any text on which all
five keyword rules fail and whose digit extraction yields fewer than 6
digits makes `conversation` return intent "unknown" with the fixed help
message and the request's call_id, and the store is unchanged. -/
theorem C9_unknown_help (st : Store) (text : String) (cid : Option String)
    (h1 : containsAny (lowerChars (pyStrip text)) ["book", "ticket", "booking", "reserve"] = false)
    (h2 : containsAny (lowerChars (pyStrip text)) ["status", "pnr", "flight status", "train status"] = false)
    (h3 : containsAny (lowerChars (pyStrip text)) ["refund", "cancel", "tatkal", "money back"] = false)
    (h4 : containsAny (lowerChars (pyStrip text)) ["agent", "human", "representative", "help"] = false)
    (h5 : containsAny (lowerChars (pyStrip text)) ["back", "main", "menu"] = false)
    (h6 : ((lowerChars (pyStrip text)).filter Char.isDigit).length < 6) :
    conversation st text cid openai_fallback_disabled =
      (st, { intent := "unknown",
             message := "Sorry, I didn't get that. You can say 'book ticket', 'train status', or 'refund'.",
             call_id := cid }) := by
  have hd : detect_intent (pyStrip text) = none := by
    simp [detect_intent, h1, h2, h3, h4, h5, Nat.not_le.mpr h6]
  simp [conversation, hd, openai_fallback_disabled]

/-- Witness for C9 on the text "xyz" against the demo store. -/
theorem C9_witness :
    conversation demoStore "xyz" (some "CALL_123456") openai_fallback_disabled =
      (demoStore,
       { intent := "unknown",
         message := "Sorry, I didn't get that. You can say 'book ticket', 'train status', or 'refund'.",
         call_id := some "CALL_123456" }) :=
  C9_unknown_help demoStore "xyz" (some "CALL_123456") rfl rfl rfl rfl rfl (by decide)

end IVR

namespace IVR

/-- Claim C10: for every call_id in the active registry and every digit
string, `handle_dtmf` appends the submitted digit to the session's
`inputs` — also when the digit is unmapped and the response is "invalid";
for digit "9" the appended input survives in the archived snapshot. -/
theorem C10_dtmf_appends_input (st : Store) (cid : String) (s : Session)
    (digit : String) (now : Nat) (h : lookupAL st.active_calls cid = some s) :
    (digit ≠ "9" →
      (lookupAL (handle_dtmf st cid digit now).1.active_calls cid).map Session.inputs =
        some (s.inputs ++ [digit])) ∧
    (digit = "9" →
      (handle_dtmf st cid digit now).1.call_history =
        st.call_history ++ [{ s with inputs := s.inputs ++ ["9"], end_time := some now }]) := by
  constructor
  · intro h9
    by_cases h1 : digit = "1"
    · subst h1
      simp [handle_dtmf, h, dtmf_mapping, lookupAL_insertAL_self]
    · by_cases h2 : digit = "2"
      · subst h2
        simp [handle_dtmf, h, dtmf_mapping, lookupAL_insertAL_self]
      · by_cases h3 : digit = "3"
        · subst h3
          simp [handle_dtmf, h, dtmf_mapping, lookupAL_insertAL_self]
        · by_cases h0 : digit = "0"
          · subst h0
            simp [handle_dtmf, h, dtmf_mapping, lookupAL_insertAL_self]
          · have hm : dtmf_mapping digit = none := by
              simp [dtmf_mapping, h1, h2, h3, h9, h0]
            simp [handle_dtmf, h, hm, lookupAL_insertAL_self]
  · intro h9
    subst h9
    simp [handle_dtmf, h, dtmf_mapping]

/-- Witness for C10 with the unmapped digit "5" on the demo store. -/
theorem C10_witness :
    ("5" : String) ≠ "9" ∧
    (lookupAL (handle_dtmf demoStore "CALL_123456" "5" 2).1.active_calls
        "CALL_123456").map Session.inputs = some (demoSession.inputs ++ ["5"]) :=
  ⟨by decide,
   (C10_dtmf_appends_input demoStore "CALL_123456" demoSession "5" 2 rfl).1 (by decide)⟩

end IVR

namespace IVR

/-- The fixed message `handle_dtmf` returns for each non-terminal target
menu (the string literals of lines 176, 180, 184, 188). -/
def dtmf_ok_message (target : String) : String :=
  if target = "booking" then "You selected Booking. Do you want Sleeper or AC?"
  else if target = "train_status" then "Please enter your 6-digit PNR."
  else if target = "refund" then "Refund menu. Say 'cancelled' or 'tatkal'."
  else main_menu.prompt

/-- Counterexample to claim C3: pressing "1" on the demo store returns the
hardcoded message "You selected Booking. Do you want Sleeper or AC?",
which is NOT the booking menu's prompt in the menu catalog ("Booking
Menu. Say 'sleeper' or 'ac' or say 'back' to return."). -/
theorem C3_counterexample :
    (handle_dtmf demoStore "CALL_123456" "1" 3).2 =
      some { status := "ok",
             message := "You selected Booking. Do you want Sleeper or AC?",
             current_menu := some "booking" } ∧
    lookupAL MENU_STRUCTURE "booking" = some booking_menu ∧
    booking_menu.prompt = "Booking Menu. Say 'sleeper' or 'ac' or say 'back' to return." ∧
    ("You selected Booking. Do you want Sleeper or AC?" : String) ≠ booking_menu.prompt := by
  refine ⟨rfl, rfl, rfl, ?_⟩
  decide

/-- Claim C3 as amended: for every active session and every mapped
non-terminal digit ("1"→booking, "2"→train_status, "3"→refund, "0"→main),
`handle_dtmf` sets `current_menu` to the target, appends the target to
`menu_path` (and the digit to `inputs`), and returns status "ok" with a
fixed per-target message — which for target `main` is the main menu's
catalog prompt, but for `booking`, `train_status` and `refund` is a
hardcoded string different from that menu's catalog prompt. -/
theorem C3_dtmf_menu_transition (st : Store) (cid : String) (s : Session)
    (digit target : String) (now : Nat)
    (h : lookupAL st.active_calls cid = some s)
    (hd : (digit, target) = ("1", "booking") ∨ (digit, target) = ("2", "train_status") ∨
          (digit, target) = ("3", "refund") ∨ (digit, target) = ("0", "main")) :
    handle_dtmf st cid digit now =
      ({ st with active_calls := insertAL st.active_calls cid { s with inputs := s.inputs ++ [digit], current_menu := target, menu_path := s.menu_path ++ [target] } },
       some { status := "ok", message := dtmf_ok_message target,
              current_menu := some target }) ∧
    (lookupAL (handle_dtmf st cid digit now).1.active_calls cid).map Session.current_menu =
      some target ∧
    (lookupAL (handle_dtmf st cid digit now).1.active_calls cid).map Session.menu_path =
      some (s.menu_path ++ [target]) ∧
    dtmf_ok_message "main" = main_menu.prompt ∧
    dtmf_ok_message "booking" ≠ booking_menu.prompt ∧
    dtmf_ok_message "train_status" ≠ train_status_menu.prompt ∧
    dtmf_ok_message "refund" ≠ refund_menu.prompt := by
  have heq : handle_dtmf st cid digit now =
      ({ st with active_calls := insertAL st.active_calls cid { s with inputs := s.inputs ++ [digit], current_menu := target, menu_path := s.menu_path ++ [target] } },
       some { status := "ok", message := dtmf_ok_message target,
              current_menu := some target }) := by
    rcases hd with hd | hd | hd | hd <;>
      · obtain ⟨rfl, rfl⟩ := Prod.mk.injEq .. ▸ hd
        simp [handle_dtmf, h, dtmf_mapping, dtmf_ok_message]
  refine ⟨heq, ?_, ?_, rfl, by decide, by decide, by decide⟩
  · rw [heq]
    simp [lookupAL_insertAL_self]
  · rw [heq]
    simp [lookupAL_insertAL_self]

/-- Witness for C3's amended theorem: digit "2" on the demo store. -/
theorem C3_witness :
    (lookupAL (handle_dtmf demoStore "CALL_123456" "2" 3).1.active_calls
        "CALL_123456").map Session.current_menu = some "train_status" :=
  (C3_dtmf_menu_transition demoStore "CALL_123456" demoSession "2" "train_status" 3
    rfl (Or.inr (Or.inl rfl))).2.1

/-- Counterexample to claim C4: the unmapped digit "5" does return status
"invalid", but it is appended to the session's `inputs` (line 155 appends
before the digit is looked up), so the session state is NOT fully
unchanged: inputs goes from [] to ["5"]. -/
theorem C4_counterexample :
    (handle_dtmf demoStore "CALL_123456" "5" 3).2 =
      some { status := "invalid", message := "Invalid option. Try again.",
             current_menu := some "main" } ∧
    (lookupAL demoStore.active_calls "CALL_123456").map Session.inputs = some [] ∧
    (lookupAL (handle_dtmf demoStore "CALL_123456" "5" 3).1.active_calls
        "CALL_123456").map Session.inputs = some ["5"] := by
  refine ⟨rfl, rfl, rfl⟩

/-- Claim C4 as amended: for every active session and every digit outside
{"1","2","3","9","0"}, `handle_dtmf` returns status "invalid" with the
retry message, leaves `current_menu` and `menu_path` of the session, all
other registry entries and the archive unchanged — but appends the digit
to the session's `inputs`. -/
theorem C4_invalid_digit (st : Store) (cid : String) (s : Session)
    (digit : String) (now : Nat)
    (h : lookupAL st.active_calls cid = some s)
    (hm : dtmf_mapping digit = none) :
    handle_dtmf st cid digit now =
      ({ st with active_calls := insertAL st.active_calls cid { s with inputs := s.inputs ++ [digit] } },
       some { status := "invalid", message := "Invalid option. Try again.",
              current_menu := some s.current_menu }) ∧
    (lookupAL (handle_dtmf st cid digit now).1.active_calls cid).map Session.current_menu =
      some s.current_menu ∧
    (lookupAL (handle_dtmf st cid digit now).1.active_calls cid).map Session.menu_path =
      some s.menu_path ∧
    (lookupAL (handle_dtmf st cid digit now).1.active_calls cid).map Session.inputs =
      some (s.inputs ++ [digit]) ∧
    (∀ k, k ≠ cid →
      lookupAL (handle_dtmf st cid digit now).1.active_calls k =
        lookupAL st.active_calls k) ∧
    (handle_dtmf st cid digit now).1.call_history = st.call_history := by
  have heq : handle_dtmf st cid digit now =
      ({ st with active_calls := insertAL st.active_calls cid { s with inputs := s.inputs ++ [digit] } },
       some { status := "invalid", message := "Invalid option. Try again.",
              current_menu := some s.current_menu }) := by
    simp [handle_dtmf, h, hm]
  refine ⟨heq, ?_, ?_, ?_, ?_, ?_⟩ <;> rw [heq]
  · simp [lookupAL_insertAL_self]
  · simp [lookupAL_insertAL_self]
  · simp [lookupAL_insertAL_self]
  · intro k hk
    exact lookupAL_insertAL_ne _ _ hk

/-- Witness for C4's amended theorem: digit "7" on the demo store. -/
theorem C4_witness :
    dtmf_mapping "7" = none ∧
    (lookupAL (handle_dtmf demoStore "CALL_123456" "7" 3).1.active_calls
        "CALL_123456").map Session.menu_path = some demoSession.menu_path :=
  ⟨rfl, (C4_invalid_digit demoStore "CALL_123456" demoSession "7" 3 rfl rfl).2.2.1⟩

end IVR

namespace IVR

theorem lookupAL_insertAL_isSome {α : Type} {l : List (String × α)} {k : String}
    {s : α} (v : α) (hl : lookupAL l k = some s) (k' : String) :
    (lookupAL (insertAL l k v) k').isSome = (lookupAL l k').isSome := by
  by_cases hk : k' = k
  · subst hk
    rw [lookupAL_insertAL_self, hl]
    rfl
  · rw [lookupAL_insertAL_ne _ _ hk]

theorem conversation_store_cases (st : Store) (text : String)
    (cid : Option String) (fb : String → Option String) :
    (conversation st text cid fb).1 = st ∨
    ∃ c s i m, cid = some c ∧ c ≠ "" ∧ lookupAL st.active_calls c = some s ∧
      detect_intent (pyStrip text) = some (i, m) ∧
      (i = "booking" ∨ i = "train_status" ∨ i = "refund" ∨ i = "main") ∧
      (conversation st text cid fb).1 =
        { st with active_calls := insertAL st.active_calls c { s with current_menu := i, menu_path := s.menu_path ++ [i] } } := by
  cases hd : detect_intent (pyStrip text) with
  | none =>
    left
    cases hf : fb (pyStrip text) <;> simp [conversation, hd, hf]
  | some im =>
    obtain ⟨i, m⟩ := im
    cases cid with
    | none =>
      left
      simp [conversation, hd]
    | some c =>
      by_cases hc : c = ""
      · left
        simp [conversation, hd, hc]
      · cases hl : lookupAL st.active_calls c with
        | none =>
          left
          simp [conversation, hd, hc, hl]
        | some s =>
          by_cases hmem : i = "booking" ∨ i = "train_status" ∨ i = "refund" ∨ i = "main"
          · right
            refine ⟨c, s, i, m, rfl, hc, hl, rfl, hmem, ?_⟩
            have hne : i ≠ "pnr_lookup" := by
              rcases hmem with rfl | rfl | rfl | rfl <;> decide
            simp [conversation, hd, hc, hl, hmem, hne]
          · left
            simp [conversation, hd, hc, hl, hmem]

/-- Claim C7: the text path mutates session state only when a session is
attached and the classified intent is one of booking, train_status,
refund, main.  With no call_id, or an unknown call_id, the store is
unchanged; for any classified intent the classified message is returned;
for intents outside the four (agent, pnr_lookup) the store is unchanged;
and the text path never archives or terminates: the archive and the set
of active call ids are always preserved. -/
theorem C7_conversation_frame (st : Store) (text : String) (cid : Option String)
    (fb : String → Option String) :
    ((conversation st text none fb).1 = st) ∧
    (∀ c, lookupAL st.active_calls c = none → (conversation st text (some c) fb).1 = st) ∧
    (∀ i m, detect_intent (pyStrip text) = some (i, m) →
      (conversation st text cid fb).2 = { intent := i, message := m, call_id := cid } ∧
      (¬(i = "booking" ∨ i = "train_status" ∨ i = "refund" ∨ i = "main") →
        (conversation st text cid fb).1 = st)) ∧
    (conversation st text cid fb).1.call_history = st.call_history ∧
    (∀ k, (lookupAL (conversation st text cid fb).1.active_calls k).isSome =
      (lookupAL st.active_calls k).isSome) := by
  refine ⟨?_, ?_, ?_, ?_, ?_⟩
  · rcases conversation_store_cases st text none fb with h | ⟨c, s, i, m, hcid, _⟩
    · exact h
    · cases hcid
  · intro c hl
    rcases conversation_store_cases st text (some c) fb with h | ⟨c', s, i, m, hcid, hc, hl', _⟩
    · exact h
    · obtain rfl : c = c' := by injection hcid
      rw [hl] at hl'
      cases hl'
  · intro i m hd
    constructor
    · simp [conversation, hd]
    · intro hni
      rcases conversation_store_cases st text cid fb with h | ⟨c, s, i', m', hcid, hc, hl, hd', hmem, hst⟩
      · exact h
      · rw [hd] at hd'
        injection hd' with h2
        rw [Prod.mk.injEq] at h2
        obtain ⟨rfl, rfl⟩ := h2
        exact absurd hmem hni
  · rcases conversation_store_cases st text cid fb with h | ⟨c, s, i, m, _, _, _, _, _, hst⟩
    · rw [h]
    · rw [hst]
  · intro k
    rcases conversation_store_cases st text cid fb with h | ⟨c, s, i, m, _, _, hl, _, _, hst⟩
    · rw [h]
    · rw [hst]
      exact lookupAL_insertAL_isSome _ hl k

/-- Witness for C7: a text classified as `agent`, with a session attached,
leaves the store unchanged (no archiving, no termination). -/
theorem C7_witness :
    detect_intent (pyStrip "agent") =
      some ("agent", "Okay — transferring you to an agent. Please hold.") ∧
    (conversation demoStore "agent" (some "CALL_123456") openai_fallback_disabled).1 =
      demoStore :=
  ⟨rfl,
   ((C7_conversation_frame demoStore "agent" (some "CALL_123456")
       openai_fallback_disabled).2.2.1 "agent"
       "Okay — transferring you to an agent. Please hold." rfl).2 (by decide)⟩

end IVR
